import Mathlib

/-!
Shallow embedding of the seeded-difference canister (src/project/src.rs).

The canister holds a single `u64` seed (`RNG_STATE`, initialized to 1).
`generate_random_number` reads the host clock, updates the seed by a
linear-congruential step using wrapping `u64` arithmetic, and returns the
seed shifted right by 16 bits, truncated to `u32`.  `calculate_difference`
maps that value into `[1,100]` and returns it together with the caller's
input and `(user_input - random_number).abs()` computed in `i32`.
`get_info` returns a constant string.

Embedding conventions: `u64` values are `Nat` taken modulo `2^64` at each
wrapping operation, exactly where the Rust code wraps; `i32` values are
`Int`.  The host clock reading (`ic_cdk::api::time()`, a `u64`) and the
seed are threaded explicitly: each state-mutating operation takes the
current seed and the clock reading of that call and returns the new seed
alongside its result.  The `i32` subtraction and `abs` in
`calculate_difference` are modeled twice: `calculate_difference` wraps on
overflow (Rust release semantics, the deployed behavior) and
`calculate_difference_checked` returns `none` on overflow (Rust debug
semantics, where overflow is a panic).
-/

namespace ICPDiff

/-- Modulus of `u64` arithmetic. -/
def U64 : Nat := 2 ^ 64

/-- Modulus of `u32` truncation (`as u32`). -/
def U32 : Nat := 2 ^ 32

/-- The result record returned by `calculate_difference`; all three Rust
fields are `i32`, modeled as `Int`. -/
structure RandomResult where
  user_input : Int
  random_number : Int
  difference : Int
deriving DecidableEq

/-- Initial value of the canister state `RNG_STATE: RefCell<u64>`. -/
def RNG_STATE_INIT : Nat := 1

/-- `u64::wrapping_mul`. -/
def wrapping_mul64 (a b : Nat) : Nat := a * b % U64

/-- `u64::wrapping_add`. -/
def wrapping_add64 (a b : Nat) : Nat := (a + b) % U64

/-- `generate_random_number`: updates the seed by
`rng.wrapping_mul(1664525).wrapping_add(1013904223).wrapping_add(time_seed)`
and returns `(*rng >> 16) as u32`.  Takes the current seed and the clock
reading `time_seed` of this call; returns (new seed, returned `u32`). -/
def generate_random_number (seed time_seed : Nat) : Nat × Nat :=
  let rng := wrapping_add64 (wrapping_add64 (wrapping_mul64 seed 1664525) 1013904223) time_seed
  (rng, (rng >>> 16) % U32)

/-- Smallest `i32` value. -/
def I32_MIN : Int := -(2 ^ 31)

/-- Largest `i32` value. -/
def I32_MAX : Int := 2 ^ 31 - 1

/-- Two's-complement wraparound into the `i32` range. -/
def wrap_i32 (x : Int) : Int := (x + 2 ^ 31) % 2 ^ 32 - 2 ^ 31

/-- `calculate_difference`, Rust release semantics: the `i32` subtraction
`user_input - random_number` and `.abs()` wrap on overflow.  Takes the
current seed and this call's clock reading; returns (new seed, result). -/
def calculate_difference (seed time_seed : Nat) (user_input : Int) : Nat × RandomResult :=
  let p := generate_random_number seed time_seed
  let random_number : Int := (p.2 % 100 : Nat) + 1
  let difference : Int := wrap_i32 |wrap_i32 (user_input - random_number)|
  (p.1, { user_input := user_input, random_number := random_number, difference := difference })

/-- `calculate_difference`, Rust debug semantics: overflow of the `i32`
subtraction, or `.abs()` applied to `i32::MIN`, is a panic, modeled as
`none`. -/
def calculate_difference_checked (seed time_seed : Nat) (user_input : Int) :
    Option (Nat × RandomResult) :=
  let p := generate_random_number seed time_seed
  let random_number : Int := (p.2 % 100 : Nat) + 1
  let d := user_input - random_number
  if I32_MIN ≤ d ∧ d ≤ I32_MAX then
    if d = I32_MIN then none
    else some (p.1, { user_input := user_input, random_number := random_number, difference := |d| })
  else none

/-- `get_info`: the constant string the query returns. -/
def get_info : String :=
  "Random Number Difference Calculator - Built on Internet Computer"

/-- `get_info` as a call in the state-threading convention: it neither
reads nor writes the seed, so the seed passes through unchanged. -/
def get_info_call (seed : Nat) : Nat × String := (seed, get_info)

/-- Run a sequence of `calculate_difference` calls, threading the seed.
Each element of the list is (clock reading, user_input) for one call. -/
def run_calls (seed : Nat) : List (Nat × Int) → List RandomResult
  | [] => []
  | c :: cs =>
    let p := calculate_difference seed c.1 c.2
    p.2 :: run_calls p.1 cs

/-- Final seed after a sequence of `calculate_difference` calls. -/
def run_seed (seed : Nat) : List (Nat × Int) → Nat
  | [] => seed
  | c :: cs => run_seed (calculate_difference seed c.1 c.2).1 cs

/-- The sequence of `random_number` values as a function of the initial
seed and the clock readings alone. -/
def rn_seq (seed : Nat) : List Nat → List Int
  | [] => []
  | t :: ts =>
    let p := generate_random_number seed t
    ((p.2 % 100 : Nat) + 1 : Int) :: rn_seq p.1 ts

/-- The `random_number` values produced by a run of calls depend only on
the initial seed and the clock readings, not on the user inputs. -/
theorem run_calls_map_rn (seed : Nat) (cs : List (Nat × Int)) :
    (run_calls seed cs).map RandomResult.random_number = rn_seq seed (cs.map Prod.fst) := by
  induction cs generalizing seed with
  | nil => rfl
  | cons c cs ih =>
    simp only [run_calls, rn_seq, List.map_cons, List.map]
    exact congrArg₂ List.cons rfl (ih _)

/-- Claim C1: for every `user_input`, every seed and every clock reading,
the `random_number` field returned by `calculate_difference` satisfies
`1 ≤ random_number ≤ 100`. -/
theorem c1_random_number_in_range (seed time_seed : Nat) (user_input : Int) :
    1 ≤ (calculate_difference seed time_seed user_input).2.random_number ∧
      (calculate_difference seed time_seed user_input).2.random_number ≤ 100 := by
  simp only [calculate_difference]
  omega

/-- Claim C4: on each `calculate_difference` call, the new seed is
`(old_seed * 1664525 + 1013904223 + clock_value) mod 2^64`, the wrapping
`u64` composition collapsing to a single modulus. -/
theorem c4_seed_recurrence (seed time_seed : Nat) (user_input : Int) :
    (calculate_difference seed time_seed user_input).1 =
      (seed * 1664525 + 1013904223 + time_seed) % 2 ^ 64 := by
  simp only [calculate_difference, generate_random_number, wrapping_add64, wrapping_mul64, U64]
  rw [Nat.mod_add_mod, add_assoc, Nat.mod_add_mod, ← add_assoc]

/-- Claim C5: the returned `random_number` is derived from the post-update
seed by shifting right 16 bits, truncating to 32 bits, then
`(raw mod 100) + 1`. -/
theorem c5_random_number_derivation (seed time_seed : Nat) (user_input : Int) :
    (calculate_difference seed time_seed user_input).2.random_number =
      ((((generate_random_number seed time_seed).1 >>> 16) % U32) % 100 : Nat) + 1 := rfl

/-- Claim C6 counterexample: the claim asserts the seed after a first call
with clock reading 0 equals 1015569748; on the code it does not
(`1*1664525+1013904223+0 = 1015568748`, the claimed value is off by
1000). -/
theorem c6_counterexample :
    (calculate_difference RNG_STATE_INIT 0 0).1 ≠ 1015569748 := by decide

/-- Claim C6 (amended): from the initial seed 1 with a clock reading of 0,
one call takes the seed to `1*1664525+1013904223+0 = 1015568748` and
returns `random_number = ((1015568748 >>> 16) mod 100) + 1 = 97`. -/
theorem c6_first_call_from_seed_one :
    (calculate_difference RNG_STATE_INIT 0 0).1 = 1015568748 ∧
      (calculate_difference RNG_STATE_INIT 0 0).1 = 1 * 1664525 + 1013904223 + 0 ∧
      (calculate_difference RNG_STATE_INIT 0 0).2.random_number =
        ((1015568748 >>> 16) % 100 : Nat) + 1 ∧
      (calculate_difference RNG_STATE_INIT 0 0).2.random_number = 97 := by
  refine ⟨by decide, by decide, by decide, by decide⟩

/-- Claim C9: the generator state is a single `u64`: it starts at 1,
and every `calculate_difference` call leaves it a value below `2^64`. -/
theorem c9_state_u64_init_one :
    RNG_STATE_INIT = 1 ∧ RNG_STATE_INIT < 2 ^ 64 ∧
      ∀ seed time_seed : Nat, ∀ user_input : Int,
        (calculate_difference seed time_seed user_input).1 < 2 ^ 64 := by
  refine ⟨rfl, by norm_num [RNG_STATE_INIT], fun seed time_seed user_input => ?_⟩
  simp only [calculate_difference, generate_random_number, wrapping_add64, U64]
  exact Nat.mod_lt _ (by norm_num)

/-- Claim C10: with the same prior seed and clock reading, two calls with
different user inputs return the same `random_number` and the same new
seed; the input only appears in the `user_input` and `difference`
fields. -/
theorem c10_input_noninterference (seed time_seed : Nat) (u1 u2 : Int) :
    (calculate_difference seed time_seed u1).1 = (calculate_difference seed time_seed u2).1 ∧
      (calculate_difference seed time_seed u1).2.random_number =
        (calculate_difference seed time_seed u2).2.random_number ∧
      (calculate_difference seed time_seed u1).2.user_input = u1 ∧
      (calculate_difference seed time_seed u2).2.user_input = u2 := ⟨rfl, rfl, rfl, rfl⟩

/-- Claim C2, failing input: with the initial seed and clock reading
18446744072693982868 the generated `random_number` is 1; for
`user_input = -2147483647` the `i32` subtraction gives `i32::MIN`, whose
`abs` overflows: the deployed (wrapping) code returns the negative value
-2147483648 instead of the exact absolute value 2147483648, and under
checked semantics the call panics. -/
theorem c2_difference_overflow_bug :
    (calculate_difference RNG_STATE_INIT 18446744072693982868 (-2147483647)).2.random_number
        = 1 ∧
      (calculate_difference RNG_STATE_INIT 18446744072693982868 (-2147483647)).2.difference
        = -2147483648 ∧
      (calculate_difference RNG_STATE_INIT 18446744072693982868 (-2147483647)).2.difference
        ≠ |(-2147483647 : Int) - 1| ∧
      calculate_difference_checked RNG_STATE_INIT 18446744072693982868 (-2147483647)
        = none := by
  refine ⟨by decide, by decide, by decide, by decide⟩

/-- Claim C3, failing input: with the initial seed and clock reading
18446744072693982868 the generated `random_number` is 1; for
`user_input = -2147483648` (`i32::MIN`) the `i32` subtraction
`user_input - random_number` overflows: checked semantics fault (`none`),
and the deployed (wrapping) code returns 2147483647 instead of the exact
difference 2147483649. -/
theorem c3_subtraction_overflow_bug :
    calculate_difference_checked RNG_STATE_INIT 18446744072693982868 (-2147483648)
        = none ∧
      (calculate_difference RNG_STATE_INIT 18446744072693982868 (-2147483648)).2.random_number
        = 1 ∧
      (calculate_difference RNG_STATE_INIT 18446744072693982868 (-2147483648)).2.difference
        = 2147483647 ∧
      (calculate_difference RNG_STATE_INIT 18446744072693982868 (-2147483648)).2.difference
        ≠ |(-2147483648 : Int) - 1| := by
  refine ⟨by decide, by decide, by decide, by decide⟩

/-- Claim C7: two executions from the freshly initialized seed whose calls
see the same sequence of clock readings produce identical sequences of
`random_number` values, whatever the user inputs of each execution. -/
theorem c7_determinism (cs1 cs2 : List (Nat × Int))
    (h : cs1.map Prod.fst = cs2.map Prod.fst) :
    (run_calls RNG_STATE_INIT cs1).map RandomResult.random_number =
      (run_calls RNG_STATE_INIT cs2).map RandomResult.random_number := by
  rw [run_calls_map_rn, run_calls_map_rn, h]

/-- Witness for C7 at two concrete two-call executions sharing the clock
sequence [5, 7] but with different user inputs. -/
theorem c7_determinism_witness :
    ([(5, 3), (7, 0)] : List (Nat × Int)).map Prod.fst =
        ([(5, -11), (7, 42)] : List (Nat × Int)).map Prod.fst ∧
      (run_calls RNG_STATE_INIT [(5, 3), (7, 0)]).map RandomResult.random_number =
        (run_calls RNG_STATE_INIT [(5, -11), (7, 42)]).map RandomResult.random_number :=
  ⟨by decide, c7_determinism _ _ (by decide)⟩

/-- Claim C8: after any number of `calculate_difference` calls from any
seed, `get_info` returns exactly the literal string and leaves the seed
untouched. -/
theorem c8_get_info_constant (seed : Nat) (cs : List (Nat × Int)) :
    get_info_call (run_seed seed cs) =
      (run_seed seed cs,
        "Random Number Difference Calculator - Built on Internet Computer") := rfl

end ICPDiff
